import Mathlib

/-!
Shallow embedding of the vhost-user network device model
(`vm-virtio/src/vhost_user/net.rs`): feature negotiation at construction,
virtio config-space access, activation/reset lifecycle, and the guest
feature-acknowledgment path.  Machine integers (u64/u32/usize) are modelled
as `Nat` with explicit `% 2 ^ w` at the points where the source can wrap,
and fallible paths return `Option`/`Except`; a Rust panic is modelled as
`Option.none` (or a dedicated outcome constructor).  The external vhost-user
backend and the host resources (eventfd creation, thread spawning) are
modelled by oracles recording which calls succeed, and the calls issued to
the backend are collected in traces.
-/

namespace VhostUserNet

/-- Feature bit constants from the virtio-net bindings (`virtio_bindings`). -/
def VIRTIO_NET_F_CSUM : Nat := 0

def VIRTIO_NET_F_GUEST_CSUM : Nat := 1

def VIRTIO_NET_F_GUEST_TSO4 : Nat := 7

def VIRTIO_NET_F_GUEST_TSO6 : Nat := 8

def VIRTIO_NET_F_GUEST_ECN : Nat := 9

def VIRTIO_NET_F_GUEST_UFO : Nat := 10

def VIRTIO_NET_F_HOST_TSO4 : Nat := 11

def VIRTIO_NET_F_HOST_TSO6 : Nat := 12

def VIRTIO_NET_F_HOST_ECN : Nat := 13

def VIRTIO_NET_F_HOST_UFO : Nat := 14

def VIRTIO_NET_F_MRG_RXBUF : Nat := 15

def VIRTIO_NET_F_CTRL_VQ : Nat := 17

def VIRTIO_NET_F_NOTIFY_ON_EMPTY : Nat := 24

def VIRTIO_NET_F_VERSION_1 : Nat := 32

def VIRTIO_RING_F_EVENT_IDX : Nat := 29

/-- Mask value of `VhostUserVirtioFeatures::PROTOCOL_FEATURES` (bit 30 of the
vhost-user virtio feature word, the protocol-features marker). -/
def PROTOCOL_FEATURES : Nat := 2 ^ 30

/-- Mask value of `VhostUserProtocolFeatures::MQ` (bit 0 of the vhost-user
protocol feature word, the multiqueue capability). -/
def PROTOCOL_F_MQ : Nat := 2 ^ 0

/-- Bitwise complement within a 64-bit word, as Rust `!x` on `u64`. -/
def not64 (x : Nat) : Nat := (2 ^ 64 - 1) ^^^ x

/-- State of the `Net` device object.  `EventFd`s, interrupt callbacks, queues
and thread handles are modelled by `Nat` identities; `Option` mirrors the
source's `Option` fields exactly.  The vhost-user `Master` connection handle
carries no device-visible state and lives in the `Backend` oracle instead. -/
structure Net where
  killEvt : Option Nat
  pauseEvt : Option Nat
  availFeatures : Nat
  ackedFeatures : Nat
  backendFeatures : Nat
  configSpace : List Nat
  queueSizes : List Nat
  queueEvts : Option (List Nat)
  interruptCb : Option Nat
  epollThread : Option Nat
  ctrlQueueEpollThread : Option Nat
  paused : Bool
deriving DecidableEq, Repr

/-- Embedding of `Net::read_config(offset, data)`.  Returns the updated
contents of `data` on normal return, `none` on a panic (the `unwrap()` of
`write_all`).  `offset.checked_add(data.len() as u64)` is modelled by the
explicit `< 2 ^ 64` test; when it overflows nothing is written. -/
def read_config (configSpace : List Nat) (offset : Nat) (data : List Nat) :
    Option (List Nat) :=
  let configLen := configSpace.length
  if offset ≥ configLen then
    some data
  else if offset + data.length < 2 ^ 64 then
    let stop := min (offset + data.length) configLen
    let src := (configSpace.drop offset).take (stop - offset)
    if src.length ≤ data.length then some (src ++ data.drop src.length) else none
  else
    some data

/-- Embedding of `Net::write_config(offset, data)`.  Returns the updated
config space on normal return, `none` on a panic.  The guard
`offset + data_len > config_len` is computed in `u64`, hence the `% 2 ^ 64`;
`split_at_mut` panics when `offset` exceeds the length, and
`copy_from_slice` panics when the suffix `config_space[offset..]` and `data`
have different lengths. -/
def write_config (configSpace : List Nat) (offset : Nat) (data : List Nat) :
    Option (List Nat) :=
  if (offset + data.length) % 2 ^ 64 > configSpace.length then
    some configSpace
  else if offset ≤ configSpace.length then
    if data.length = configSpace.length - offset then
      some (configSpace.take offset ++ data)
    else
      none
  else
    none

/-- Embedding of `Net::features(page)` (`VirtioDevice` impl): page 0 is the
low 32 bits of `avail_features`, page 1 the high 32 bits, any other page 0.
The `as u32` casts are the explicit `% 2 ^ 32`. -/
def Net.features (net : Net) (page : Nat) : Nat :=
  match page with
  | 0 => net.availFeatures % 2 ^ 32
  | 1 => (net.availFeatures >>> 32) % 2 ^ 32
  | _ => 0

/-- Embedding of `Net::ack_features(page, value)`: the page selects which
32-bit half the guest acknowledges; bits not offered in `avail_features`
(`unrequested_features`) are masked out of `v` before it is OR-ed into
`acked_features`. -/
def Net.ack_features (net : Net) (page value : Nat) : Net :=
  let v : Nat :=
    match page with
    | 0 => value
    | 1 => value <<< 32
    | _ => 0
  let unrequestedFeatures := v &&& not64 net.availFeatures
  let v2 := if unrequestedFeatures ≠ 0 then v &&& not64 unrequestedFeatures else v
  { net with ackedFeatures := net.ackedFeatures ||| v2 }

/-- Construction parameters (`VhostUserConfig`): socket path (identity),
requested data-queue count, per-queue ring size. -/
structure VhostUserConfig where
  sock : Nat
  numQueues : Nat
  queueSize : Nat
deriving DecidableEq, Repr

/-- Construction error taxonomy (`vhost_user::Error` variants used by
`Net::new`). -/
inductive NetError where
  | vhostUserCreateMaster
  | vhostUserSetOwner
  | vhostUserGetFeatures
  | vhostUserSetFeatures
  | vhostUserGetProtocolFeatures
  | vhostUserSetProtocolFeatures
  | vhostUserProtocolNotSupport
  | vhostUserSetVringBase
deriving DecidableEq, Repr

/-- A vhost-user control-channel call issued to the backend. -/
inductive BackendCall where
  | setOwner
  | getFeatures
  | setFeatures (features : Nat)
  | getProtocolFeatures
  | setProtocolFeatures (features : Nat)
  | setVringBase (index base : Nat)
deriving DecidableEq, Repr

/-- Oracle for the backend side of the handshake: which calls succeed and
what feature words the backend reports. -/
structure Backend where
  connectOk : Bool
  setOwnerOk : Bool
  getFeaturesOk : Bool
  features : Nat
  setFeaturesOk : Bool
  getProtocolFeaturesOk : Bool
  protocolFeatures : Nat
  setProtocolFeaturesOk : Bool
  setVringBaseOk : Nat → Bool

/-- Local feature mask composed at the start of `Net::new` (offloads, ring
features, and the protocol-features marker), in source order. -/
def initialAvailFeatures : Nat :=
  2 ^ VIRTIO_NET_F_GUEST_CSUM
    ||| 2 ^ VIRTIO_NET_F_CSUM
    ||| 2 ^ VIRTIO_NET_F_GUEST_TSO4
    ||| 2 ^ VIRTIO_NET_F_GUEST_TSO6
    ||| 2 ^ VIRTIO_NET_F_GUEST_ECN
    ||| 2 ^ VIRTIO_NET_F_GUEST_UFO
    ||| 2 ^ VIRTIO_NET_F_HOST_TSO4
    ||| 2 ^ VIRTIO_NET_F_HOST_TSO6
    ||| 2 ^ VIRTIO_NET_F_HOST_ECN
    ||| 2 ^ VIRTIO_NET_F_HOST_UFO
    ||| 2 ^ VIRTIO_NET_F_MRG_RXBUF
    ||| 2 ^ VIRTIO_NET_F_NOTIFY_ON_EMPTY
    ||| 2 ^ VIRTIO_NET_F_VERSION_1
    ||| 2 ^ VIRTIO_RING_F_EVENT_IDX
    ||| PROTOCOL_FEATURES

/-- Modelled from the spec: `build_net_config_space` (defined in
`net_util.rs`, which is outside this source unit) derives the config-space
bytes from the MAC address and the final negotiated mask; the spec describes
it as producing the byte layout (MAC, and feature-dependent fields) and does
not describe it altering the mask, so it is modelled as returning the MAC
bytes and leaving `avail_features` unchanged. -/
def build_net_config_space (macAddr : List Nat) (_availFeatures : Nat) : List Nat :=
  macAddr

/-- The `set_vring_base(i, 0)` priming loop of `Net::new`, over the data
queue indices; stops at the first failing call. -/
def setVringBaseLoop (be : Backend) : List Nat → Except NetError Unit × List BackendCall
  | [] => (Except.ok (), [])
  | i :: rest =>
    if be.setVringBaseOk i then
      let r := setVringBaseLoop be rest
      (r.1, BackendCall.setVringBase i 0 :: r.2)
    else
      (Except.error NetError.vhostUserSetVringBase, [BackendCall.setVringBase i 0])

/-- Embedding of `Net::new(mac_addr, vu_cfg)` against the backend oracle.
Returns the constructor result together with the trace of backend calls
issued (in order).  `acked_features` starts at 0 and receives exactly the
`PROTOCOL_FEATURES` marker in the success path; the control-queue bit is
OR-ed into `avail_features` unconditionally after the protocol check. -/
def Net.new (macAddr : List Nat) (vuCfg : VhostUserConfig) (be : Backend) :
    Except NetError Net × List BackendCall :=
  if ¬ be.connectOk then
    (Except.error NetError.vhostUserCreateMaster, [])
  else if ¬ be.setOwnerOk then
    (Except.error NetError.vhostUserSetOwner, [BackendCall.setOwner])
  else if ¬ be.getFeaturesOk then
    (Except.error NetError.vhostUserGetFeatures,
      [BackendCall.setOwner, BackendCall.getFeatures])
  else
    let availFeatures1 := initialAvailFeatures &&& be.features
    if ¬ be.setFeaturesOk then
      (Except.error NetError.vhostUserSetFeatures,
        [BackendCall.setOwner, BackendCall.getFeatures,
          BackendCall.setFeatures availFeatures1])
    else if availFeatures1 &&& PROTOCOL_FEATURES ≠ 0 then
      if ¬ be.getProtocolFeaturesOk then
        (Except.error NetError.vhostUserGetProtocolFeatures,
          [BackendCall.setOwner, BackendCall.getFeatures,
            BackendCall.setFeatures availFeatures1, BackendCall.getProtocolFeatures])
      else
        let protocolFeatures := be.protocolFeatures &&& PROTOCOL_F_MQ
        if ¬ be.setProtocolFeaturesOk then
          (Except.error NetError.vhostUserSetProtocolFeatures,
            [BackendCall.setOwner, BackendCall.getFeatures,
              BackendCall.setFeatures availFeatures1, BackendCall.getProtocolFeatures,
              BackendCall.setProtocolFeatures protocolFeatures])
        else
          let availFeatures2 := availFeatures1 ||| 2 ^ VIRTIO_NET_F_CTRL_VQ
          let queueNum := vuCfg.numQueues + 1
          let configSpace := build_net_config_space macAddr availFeatures2
          let pre : List BackendCall :=
            [BackendCall.setOwner, BackendCall.getFeatures,
              BackendCall.setFeatures availFeatures1, BackendCall.getProtocolFeatures,
              BackendCall.setProtocolFeatures protocolFeatures]
          match setVringBaseLoop be (List.range vuCfg.numQueues) with
          | (Except.error e, tr) => (Except.error e, pre ++ tr)
          | (Except.ok _, tr) =>
            (Except.ok
              { killEvt := none
                pauseEvt := none
                availFeatures := availFeatures2
                ackedFeatures := PROTOCOL_FEATURES
                backendFeatures := be.features
                configSpace := configSpace
                queueSizes := List.replicate queueNum vuCfg.queueSize
                queueEvts := none
                interruptCb := none
                epollThread := none
                ctrlQueueEpollThread := none
                paused := false }, pre ++ tr)
    else
      (Except.error NetError.vhostUserProtocolNotSupport,
        [BackendCall.setOwner, BackendCall.getFeatures,
          BackendCall.setFeatures availFeatures1])

/-- Activation error taxonomy (`ActivateError`). -/
inductive ActivateError where
  | badActivate
  | vhostUserNetSetup
deriving DecidableEq, Repr

/-- Oracle for the host resources used by `Net::activate`: creation of the
kill and pause eventfd pairs, per-index cloning of the queue eventfds,
spawning of the control-queue and main relay threads, and the
`setup_vhost_user` backend programming call. -/
structure ActivateEnv where
  killEvtOk : Bool
  pauseEvtOk : Bool
  queueEvtCloneOk : Nat → Bool
  ctrlSpawnOk : Bool
  setupVhostUserOk : Bool
  epollSpawnOk : Bool

/-- The queue-eventfd cloning loop of `Net::activate`: clones each eventfd in
order (identities preserved), failing at the first clone the oracle
refuses. -/
def cloneQueueEvts (ok : Nat → Bool) : List Nat → Nat → Option (List Nat)
  | [], _ => some []
  | e :: rest, i =>
    if ok i then
      match cloneQueueEvts ok rest (i + 1) with
      | some l => some (e :: l)
      | none => none
    else none

/-- The control-queue split of `Net::activate` (the block guarded by
`acked_features & (1 << VIRTIO_NET_F_CTRL_VQ) != 0 && queue_num % 2 != 0`):
detaches the trailing queue pair and spawns the control-queue thread,
failing with `BadActivate` when the spawn fails; returns the updated device
and the number of threads spawned by the block. -/
def ctrlQueueStep (net4 : Net) (acked queueNum : Nat) (env : ActivateEnv) :
    Except ActivateError (Net × Nat) :=
  if acked &&& 2 ^ VIRTIO_NET_F_CTRL_VQ ≠ 0 ∧ queueNum % 2 ≠ 0 then
    if ¬ env.ctrlSpawnOk then
      Except.error ActivateError.badActivate
    else
      Except.ok ({ net4 with ctrlQueueEpollThread := some 0 }, 1)
  else
    Except.ok (net4, 0)

/-- The tail of `Net::activate` after the queue eventfds have been saved:
the control-queue split, then `setup_vhost_user`, then the spawn of the main
relay thread. -/
def activateTail (net4 : Net) (acked queueNum : Nat) (env : ActivateEnv) :
    Except ActivateError Unit × Net × Nat :=
  match ctrlQueueStep net4 acked queueNum env with
  | Except.error e => (Except.error e, net4, 0)
  | Except.ok (net5, spawned) =>
    if ¬ env.setupVhostUserOk then
      (Except.error ActivateError.vhostUserNetSetup, net5, spawned)
    else if ¬ env.epollSpawnOk then
      (Except.error ActivateError.badActivate, net5, spawned)
    else
      (Except.ok (), { net5 with epollThread := some 0 }, spawned + 1)

/-- Embedding of `Net::activate(mem, interrupt_cb, queues, queue_evts)`.
Returns the call result, the device state after the call, and the number of
worker threads spawned.  The state is threaded exactly as the source mutates
it: `kill_evt`, `pause_evt`, `interrupt_cb` and `queue_evts` are set one
after the other, each before the next fallible step, so a later failure
leaves the earlier fields assigned.  The detached control-queue pair and the
queues handed to `setup_vhost_user` carry no further device-visible state,
so the handoff itself is not recorded beyond the spawn count. -/
def Net.activate (net : Net) (interruptCb : Nat) (queues : List Nat)
    (queueEvts : List Nat) (env : ActivateEnv) :
    Except ActivateError Unit × Net × Nat :=
  if queues.length ≠ net.queueSizes.length ∨ queueEvts.length ≠ net.queueSizes.length then
    (Except.error ActivateError.badActivate, net, 0)
  else if ¬ env.killEvtOk then
    (Except.error ActivateError.badActivate, net, 0)
  else
    let net1 := { net with killEvt := some 0 }
    if ¬ env.pauseEvtOk then
      (Except.error ActivateError.badActivate, net1, 0)
    else
      let net2 := { net1 with pauseEvt := some 0 }
      let net3 := { net2 with interruptCb := some interruptCb }
      match cloneQueueEvts env.queueEvtCloneOk queueEvts 0 with
      | none => (Except.error ActivateError.badActivate, net3, 0)
      | some tmp =>
        let net4 := { net3 with queueEvts := some tmp }
        activateTail net4 net.ackedFeatures queueEvts.length env

/-- Events observable during `Net::reset`, in issue order: the resume of a
paused device, the backend-side per-queue reset call, and the write to the
shutdown (kill) eventfd. -/
inductive ResetEvent where
  | resume
  | backendReset
  | killWrite
deriving DecidableEq, Repr

/-- Result of `Net::reset`: `panicked` models the `unwrap()` of an absent
`interrupt_cb`/`queue_evts`, `nothing` the `None` return, `returned` the
`Some((interrupt_cb, queue_evts))` return. -/
inductive ResetOutcome where
  | panicked
  | nothing
  | returned (interruptCb : Nat) (queueEvts : List Nat)
deriving DecidableEq, Repr

/-- Modelled from the spec: `resume` comes from the `virtio_pausable!` macro
(defined outside this source unit); per the spec it flips the shared pause
flag back off and wakes the workers, so it is modelled as clearing `paused`
(the wake-up itself is the `ResetEvent.resume` trace entry at the call
site). -/
def Net.resume (net : Net) : Net := { net with paused := false }

/-- Embedding of `Net::reset()` against the backend oracle (`backendResetOk`
tells whether the `reset_vhost_user` per-queue reset call succeeds).
Returns the outcome, the device state afterwards, and the trace of events.
`self.pause_evt.take()` empties `pause_evt` unconditionally; `resume` runs
only when it was present.  On backend reset failure the function returns
`None` immediately, before the kill-eventfd write. -/
def Net.reset (net : Net) (backendResetOk : Bool) :
    ResetOutcome × Net × List ResetEvent :=
  let step1 : Net × List ResetEvent :=
    if net.pauseEvt.isSome then
      (Net.resume { net with pauseEvt := none }, [ResetEvent.resume])
    else
      ({ net with pauseEvt := none }, [])
  let net1 := step1.1
  let tr1 := step1.2 ++ [ResetEvent.backendReset]
  if ¬ backendResetOk then
    (ResetOutcome.nothing, net1, tr1)
  else
    let step2 : Net × List ResetEvent :=
      match net1.killEvt with
      | some _ => ({ net1 with killEvt := none }, tr1 ++ [ResetEvent.killWrite])
      | none => (net1, tr1)
    let net2 := step2.1
    let tr2 := step2.2
    match net2.interruptCb, net2.queueEvts with
    | some icb, some qes =>
      (ResetOutcome.returned icb qes,
        { net2 with interruptCb := none, queueEvts := none }, tr2)
    | some _, none => (ResetOutcome.panicked, net2, tr2)
    | none, _ => (ResetOutcome.panicked, net2, tr2)

/-- Selector for `set_vring_base` entries in a backend-call trace. -/
def isSetVringBase : BackendCall → Bool
  | BackendCall.setVringBase _ _ => true
  | _ => false

/-- A fully cooperative backend advertising every feature bit and the
multiqueue protocol feature. -/
def fullBackend : Backend :=
  { connectOk := true
    setOwnerOk := true
    getFeaturesOk := true
    features := 2 ^ 64 - 1
    setFeaturesOk := true
    getProtocolFeaturesOk := true
    protocolFeatures := 1
    setProtocolFeaturesOk := true
    setVringBaseOk := fun _ => true }

/-- A backend that never sets the protocol-features marker bit. -/
def noProtocolBackend : Backend :=
  { connectOk := true
    setOwnerOk := true
    getFeaturesOk := true
    features := 0
    setFeaturesOk := true
    getProtocolFeaturesOk := true
    protocolFeatures := 0
    setProtocolFeaturesOk := true
    setVringBaseOk := fun _ => true }

/-- The MAC address AA:BB:CC:DD:EE:FF. -/
def sampleMac : List Nat := [170, 187, 204, 221, 238, 255]

/-- Construction parameters: 2 requested data queues, ring size 256. -/
def sampleCfg : VhostUserConfig := { sock := 0, numQueues := 2, queueSize := 256 }

/-- The device produced by `Net.new sampleMac sampleCfg fullBackend`. -/
def sampleNewNet : Net :=
  { killEvt := none
    pauseEvt := none
    availFeatures := (initialAvailFeatures &&& (2 ^ 64 - 1)) ||| 2 ^ VIRTIO_NET_F_CTRL_VQ
    ackedFeatures := PROTOCOL_FEATURES
    backendFeatures := 2 ^ 64 - 1
    configSpace := build_net_config_space sampleMac
      ((initialAvailFeatures &&& (2 ^ 64 - 1)) ||| 2 ^ VIRTIO_NET_F_CTRL_VQ)
    queueSizes := List.replicate 3 256
    queueEvts := none
    interruptCb := none
    epollThread := none
    ctrlQueueEpollThread := none
    paused := false }

/-- The backend-call trace of `Net.new sampleMac sampleCfg fullBackend`. -/
def sampleNewTrace : List BackendCall :=
  [BackendCall.setOwner, BackendCall.getFeatures,
    BackendCall.setFeatures (initialAvailFeatures &&& (2 ^ 64 - 1)),
    BackendCall.getProtocolFeatures, BackendCall.setProtocolFeatures 1,
    BackendCall.setVringBase 0 0, BackendCall.setVringBase 1 0]

/-- An idle (never activated) device with one configured queue. -/
def sampleIdleNet : Net :=
  { killEvt := none
    pauseEvt := none
    availFeatures := 0
    ackedFeatures := 0
    backendFeatures := 0
    configSpace := []
    queueSizes := [256]
    queueEvts := none
    interruptCb := none
    epollThread := none
    ctrlQueueEpollThread := none
    paused := false }

/-- An activated, paused device. -/
def samplePausedNet : Net :=
  { killEvt := some 5
    pauseEvt := some 6
    availFeatures := 0
    ackedFeatures := 0
    backendFeatures := 0
    configSpace := []
    queueSizes := [256]
    queueEvts := some [4]
    interruptCb := some 7
    epollThread := some 0
    ctrlQueueEpollThread := none
    paused := true }

/-- An activation environment whose pause-eventfd creation fails while
everything else succeeds. -/
def pauseFailEnv : ActivateEnv :=
  { killEvtOk := true
    pauseEvtOk := false
    queueEvtCloneOk := fun _ => true
    ctrlSpawnOk := true
    setupVhostUserOk := true
    epollSpawnOk := true }

/-- An activation environment in which every resource is granted. -/
def allOkEnv : ActivateEnv :=
  { killEvtOk := true
    pauseEvtOk := true
    queueEvtCloneOk := fun _ => true
    ctrlSpawnOk := true
    setupVhostUserOk := true
    epollSpawnOk := true }

/-- An activation environment whose kill-eventfd creation fails. -/
def killFailEnv : ActivateEnv :=
  { killEvtOk := false
    pauseEvtOk := true
    queueEvtCloneOk := fun _ => true
    ctrlSpawnOk := true
    setupVhostUserOk := true
    epollSpawnOk := true }

/-- An idle device that has acknowledged the control-queue feature and has
three configured queues (two data + one control). -/
def sampleCtrlNet : Net :=
  { killEvt := none
    pauseEvt := none
    availFeatures := 2 ^ VIRTIO_NET_F_CTRL_VQ
    ackedFeatures := 2 ^ VIRTIO_NET_F_CTRL_VQ
    backendFeatures := 2 ^ VIRTIO_NET_F_CTRL_VQ
    configSpace := []
    queueSizes := [256, 256, 256]
    queueEvts := none
    interruptCb := none
    epollThread := none
    ctrlQueueEpollThread := none
    paused := false }

/-- The state `sampleCtrlNet.activate 7 [1, 2, 3] [4, 5, 6] allOkEnv`
leaves behind. -/
def sampleCtrlActivatedNet : Net :=
  { killEvt := some 0
    pauseEvt := some 0
    availFeatures := 2 ^ VIRTIO_NET_F_CTRL_VQ
    ackedFeatures := 2 ^ VIRTIO_NET_F_CTRL_VQ
    backendFeatures := 2 ^ VIRTIO_NET_F_CTRL_VQ
    configSpace := []
    queueSizes := [256, 256, 256]
    queueEvts := some [4, 5, 6]
    interruptCb := some 7
    epollThread := some 0
    ctrlQueueEpollThread := some 0
    paused := false }

theorem testBit_ge_64 {v : Nat} (hv : v < 2 ^ 64) {i : Nat} (hi : 64 ≤ i) :
    v.testBit i = false :=
  Nat.testBit_lt_two_pow (lt_of_lt_of_le hv (Nat.pow_le_pow_right (by norm_num) hi))

theorem testBit_not64 (x : Nat) {i : Nat} (hi : i < 64) :
    (not64 x).testBit i = !x.testBit i := by
  rw [not64, Nat.testBit_xor, Nat.testBit_two_pow_sub_one]
  simp [hi]

/-- The masked acknowledgment value computed by `ack_features` only carries
bits present in the mask `A`. -/
theorem ackv_subset (A v : Nat) (hv : v < 2 ^ 64) :
    (if v &&& not64 A ≠ 0 then v &&& not64 (v &&& not64 A) else v) &&& A
      = (if v &&& not64 A ≠ 0 then v &&& not64 (v &&& not64 A) else v) := by
  by_cases hz : v &&& not64 A = 0
  · rw [if_neg (by simpa using hz)]
    apply Nat.eq_of_testBit_eq
    intro i
    rw [Nat.testBit_land]
    by_cases hvi : v.testBit i = true
    · have hi : i < 64 := by
        by_contra hge
        rw [testBit_ge_64 hv (by omega)] at hvi
        exact Bool.noConfusion hvi
      have h0 : (v &&& not64 A).testBit i = false := by rw [hz]; simp
      rw [Nat.testBit_land, testBit_not64 _ hi, hvi] at h0
      simp at h0
      simp [hvi, h0]
    · simp [Bool.not_eq_true] at hvi
      simp [hvi]
  · rw [if_pos (by simpa using hz)]
    apply Nat.eq_of_testBit_eq
    intro i
    rw [Nat.testBit_land, Nat.testBit_land]
    by_cases hvi : v.testBit i = true
    · have hi : i < 64 := by
        by_contra hge
        rw [testBit_ge_64 hv (by omega)] at hvi
        exact Bool.noConfusion hvi
      rw [testBit_not64 _ hi, Nat.testBit_land, testBit_not64 _ hi, hvi]
      cases hAi : A.testBit i <;> simp
    · simp [Bool.not_eq_true] at hvi
      simp [hvi]

theorem lor_land_of_land (x y A : Nat) (hx : x &&& A = x) (hy : y &&& A = y) :
    (x ||| y) &&& A = x ||| y := by
  apply Nat.eq_of_testBit_eq
  intro i
  have hxi := congrArg (Nat.testBit · i) hx
  have hyi := congrArg (Nat.testBit · i) hy
  simp only [Nat.testBit_land, Nat.testBit_lor] at hxi hyi ⊢
  cases h1 : x.testBit i <;> cases h2 : y.testBit i <;> simp_all

/-- Acknowledgment preserves the subset invariant: helper shared by the
invariant claims. -/
theorem ack_features_land_avail (net : Net) (page value : Nat) (hv : value < 2 ^ 32)
    (h : net.ackedFeatures &&& net.availFeatures = net.ackedFeatures) :
    (net.ack_features page value).ackedFeatures &&& net.availFeatures
      = (net.ack_features page value).ackedFeatures := by
  match page with
  | 0 =>
    simp only [Net.ack_features]
    exact lor_land_of_land _ _ _ h (ackv_subset _ _ (by omega))
  | 1 =>
    simp only [Net.ack_features]
    refine lor_land_of_land _ _ _ h (ackv_subset _ _ ?_)
    rw [Nat.shiftLeft_eq]
    calc value * 2 ^ 32 < 2 ^ 32 * 2 ^ 32 := Nat.mul_lt_mul_of_pos_right hv (by norm_num)
      _ = 2 ^ 64 := by norm_num
  | n + 2 =>
    simp only [Net.ack_features]
    exact lor_land_of_land _ _ _ h (ackv_subset _ _ (by norm_num))

theorem ack_features_avail (net : Net) (page value : Nat) :
    (net.ack_features page value).availFeatures = net.availFeatures := rfl

/-- C4: `read_config(offset, data)` never panics and never reaches outside
`config_space`: for `offset ≥ config_space.len()` it is a no-op on `data`,
and for `offset < config_space.len()` it overwrites exactly the first
`min(offset + data.len(), config_space.len()) - offset` bytes of `data` with
the bytes of `config_space` starting at `offset`, leaving the rest of `data`
unchanged.  The bounds on the two lengths reflect Rust's slice-size limit
(`isize::MAX`), under which the `checked_add` in the source cannot
overflow. -/
theorem read_config_correct (configSpace : List Nat) (offset : Nat) (data : List Nat)
    (hcs : configSpace.length < 2 ^ 63) (hdata : data.length < 2 ^ 63) :
    (configSpace.length ≤ offset → read_config configSpace offset data = some data) ∧
    (offset < configSpace.length →
      read_config configSpace offset data =
        some ((configSpace.drop offset).take
            (min (offset + data.length) configSpace.length - offset) ++
          data.drop (min (offset + data.length) configSpace.length - offset))) := by
  constructor
  · intro h
    simp only [read_config]
    rw [if_pos (by omega)]
  · intro h
    have hsrc : ((configSpace.drop offset).take
        (min (offset + data.length) configSpace.length - offset)).length
        = min (offset + data.length) configSpace.length - offset := by
      simp only [List.length_take, List.length_drop]
      omega
    simp only [read_config]
    rw [if_neg (by omega), if_pos (by omega), if_pos (by rw [hsrc]; omega), hsrc]

/-- Closed instance of the C4 theorem: reading 4 bytes at offset 1 of a
3-byte config space copies the 2 remaining bytes and leaves the tail of the
destination buffer unchanged. -/
theorem read_config_correct_witness :
    read_config [1, 2, 3] 1 [9, 9, 9, 9] = some [2, 3, 9, 9] := by
  have h := (read_config_correct [1, 2, 3] 1 [9, 9, 9, 9]
    (by norm_num) (by norm_num)).2 (by norm_num)
  simpa using h

/-- C1: `write_config` does not implement the specified in-place overwrite:
because the source copies `data` onto the whole suffix
`config_space[offset..]` with `copy_from_slice`, any in-bounds write with
`offset + data.len() < config_space.len()` panics on the length mismatch
(modelled as `none`) — here writing 1 byte at offset 0 of a 2-byte config
space; only writes that end exactly at the end of the buffer succeed, and
out-of-range writes are rejected with the buffer unchanged. -/
theorem write_config_inbounds_panics :
    write_config [0, 0] 0 [170] = none ∧
    write_config [0, 0] 0 [170, 187] = some [170, 187] ∧
    write_config [0, 0] 1 [187] = some [0, 187] ∧
    write_config [0, 0] 1 [170, 187] = some [0, 0] := by
  refine ⟨rfl, rfl, rfl, rfl⟩

/-- C10: for any feature page other than 0 and 1, `features` returns 0 and
`ack_features` leaves `acked_features` unchanged, whatever the value. -/
theorem features_ack_unknown_page (net : Net) (page value : Nat) (hpage : 2 ≤ page) :
    net.features page = 0 ∧
    (net.ack_features page value).ackedFeatures = net.ackedFeatures := by
  obtain ⟨m, rfl⟩ : ∃ m, page = m + 2 := ⟨page - 2, by omega⟩
  constructor
  · rfl
  · simp [Net.ack_features]

/-- Closed instance of the C10 theorem at page 2. -/
theorem features_ack_unknown_page_witness :
    sampleIdleNet.features 2 = 0 ∧
    (sampleIdleNet.ack_features 2 5).ackedFeatures = sampleIdleNet.ackedFeatures :=
  features_ack_unknown_page sampleIdleNet 2 5 (by norm_num)

theorem setVringBaseLoop_ok (be : Backend) (is0 : List Nat) (tr : List BackendCall)
    (h : setVringBaseLoop be is0 = (Except.ok (), tr)) :
    tr = is0.map (fun i => BackendCall.setVringBase i 0) := by
  induction is0 generalizing tr with
  | nil =>
    simp only [setVringBaseLoop] at h
    simp [← (Prod.mk.injEq .. ▸ h : _ ∧ _).2]
  | cons i rest ih =>
    simp only [setVringBaseLoop] at h
    by_cases hok : be.setVringBaseOk i
    · rw [if_pos hok] at h
      obtain ⟨h1, h2⟩ := Prod.mk.injEq .. ▸ h
      have hrest : setVringBaseLoop be rest = (Except.ok (), (setVringBaseLoop be rest).2) := by
        rw [← h1]
      rw [List.map_cons, ← h2, ih _ hrest]
    · rw [if_neg hok] at h
      exact absurd (Prod.mk.injEq .. ▸ h : _ ∧ _).1 (by simp)

/-- Inversion of a successful `Net::new`: the exact device value and backend
trace the success path produces, plus the protocol-features guard that the
path must have passed. -/
theorem new_ok_inversion (macAddr : List Nat) (vuCfg : VhostUserConfig) (be : Backend)
    (net : Net) (tr : List BackendCall)
    (h : Net.new macAddr vuCfg be = (Except.ok net, tr)) :
    net =
      { killEvt := none
        pauseEvt := none
        availFeatures := (initialAvailFeatures &&& be.features) ||| 2 ^ VIRTIO_NET_F_CTRL_VQ
        ackedFeatures := PROTOCOL_FEATURES
        backendFeatures := be.features
        configSpace := build_net_config_space macAddr
          ((initialAvailFeatures &&& be.features) ||| 2 ^ VIRTIO_NET_F_CTRL_VQ)
        queueSizes := List.replicate (vuCfg.numQueues + 1) vuCfg.queueSize
        queueEvts := none
        interruptCb := none
        epollThread := none
        ctrlQueueEpollThread := none
        paused := false } ∧
    (initialAvailFeatures &&& be.features) &&& PROTOCOL_FEATURES ≠ 0 ∧
    tr = [BackendCall.setOwner, BackendCall.getFeatures,
        BackendCall.setFeatures (initialAvailFeatures &&& be.features),
        BackendCall.getProtocolFeatures,
        BackendCall.setProtocolFeatures (be.protocolFeatures &&& PROTOCOL_F_MQ)]
      ++ (List.range vuCfg.numQueues).map (fun i => BackendCall.setVringBase i 0) := by
  simp only [Net.new] at h
  split_ifs at h with h1 h2 h3 h4 h5 h6 h7
  all_goals try (exact Except.noConfusion (congrArg Prod.fst h))
  rcases hloop : setVringBaseLoop be (List.range vuCfg.numQueues) with ⟨r, tr2⟩
  rw [hloop] at h
  cases r with
  | error e => exact Except.noConfusion (congrArg Prod.fst h)
  | ok u =>
    obtain ⟨hnet, htr⟩ := Prod.mk.injEq .. ▸ h
    refine ⟨(Except.ok.injEq .. ▸ hnet).symm, h5, ?_⟩
    rw [← htr, setVringBaseLoop_ok be _ tr2 (by rw [hloop])]

theorem land_two_pow_ne_zero {x n : Nat} (h : x &&& 2 ^ n ≠ 0) : x.testBit n = true := by
  cases hb : x.testBit n with
  | false => exact absurd (by rw [Nat.and_two_pow, hb]; simp) h
  | true => rfl

theorem two_pow_land_lor {x : Nat} (n m : Nat) (hx : x.testBit n = true) :
    2 ^ n &&& (x ||| 2 ^ m) = 2 ^ n := by
  apply Nat.eq_of_testBit_eq
  intro i
  rw [Nat.testBit_land, Nat.testBit_lor, Nat.testBit_two_pow]
  by_cases h : n = i
  · subst h
    simp [hx]
  · simp [h]

theorem lor_two_pow_land (x n : Nat) : (x ||| 2 ^ n) &&& 2 ^ n = 2 ^ n := by
  apply Nat.eq_of_testBit_eq
  intro i
  rw [Nat.testBit_land, Nat.testBit_lor, Nat.testBit_two_pow]
  by_cases h : n = i <;> simp [h]

/-- C3: `acked_features ⊆ avail_features` is established by the constructor
(the only acknowledged bit is the protocol-features marker, which the
success path has checked to be available) and preserved by every
`ack_features(page, value)` call, which masks any bit outside
`avail_features` out of the acknowledgment before recording it.  Subset is
phrased as `acked &&& avail = acked`; the `value < 2 ^ 32` bound is the
`u32` type of the acknowledged half-word. -/
theorem acked_features_subset :
    (∀ macAddr vuCfg be net tr, Net.new macAddr vuCfg be = (Except.ok net, tr) →
      net.ackedFeatures &&& net.availFeatures = net.ackedFeatures) ∧
    (∀ (net : Net) (page value : Nat), value < 2 ^ 32 →
      net.ackedFeatures &&& net.availFeatures = net.ackedFeatures →
      (net.ack_features page value).ackedFeatures &&&
          (net.ack_features page value).availFeatures
        = (net.ack_features page value).ackedFeatures) := by
  constructor
  · intro macAddr vuCfg be net tr h
    obtain ⟨hnet, hpf, -⟩ := new_ok_inversion macAddr vuCfg be net tr h
    subst hnet
    exact two_pow_land_lor 30 VIRTIO_NET_F_CTRL_VQ (land_two_pow_ne_zero hpf)
  · intro net page value hv hsub
    rw [ack_features_avail]
    exact ack_features_land_avail net page value hv hsub

/-- Closed instance of the C3 theorem: the invariant holds for the device
built against `fullBackend` and survives a full low-page acknowledgment. -/
theorem acked_features_subset_witness :
    sampleNewNet.ackedFeatures &&& sampleNewNet.availFeatures = sampleNewNet.ackedFeatures ∧
    ((sampleNewNet.ack_features 0 4294967295).ackedFeatures &&&
        (sampleNewNet.ack_features 0 4294967295).availFeatures
      = (sampleNewNet.ack_features 0 4294967295).ackedFeatures) :=
  ⟨acked_features_subset.1 sampleMac sampleCfg fullBackend sampleNewNet sampleNewTrace rfl,
    acked_features_subset.2 sampleNewNet 0 4294967295 (by norm_num)
      (acked_features_subset.1 sampleMac sampleCfg fullBackend sampleNewNet sampleNewTrace rfl)⟩

/-- C6: when the chained handshake steps reach the protocol check but the
negotiated mask lacks the protocol-features marker bit, `Net::new` fails
with `VhostUserProtocolNotSupport` and produces no device value. -/
theorem new_protocol_not_supported (macAddr : List Nat) (vuCfg : VhostUserConfig)
    (be : Backend) (hc : be.connectOk = true) (ho : be.setOwnerOk = true)
    (hg : be.getFeaturesOk = true) (hs : be.setFeaturesOk = true)
    (hpf : (initialAvailFeatures &&& be.features) &&& PROTOCOL_FEATURES = 0) :
    Net.new macAddr vuCfg be
      = (Except.error NetError.vhostUserProtocolNotSupport,
        [BackendCall.setOwner, BackendCall.getFeatures,
          BackendCall.setFeatures (initialAvailFeatures &&& be.features)]) := by
  simp [Net.new, hc, ho, hg, hs, hpf]

/-- Closed instance of the C6 theorem against a backend advertising no
protocol features. -/
theorem new_protocol_not_supported_witness :
    Net.new sampleMac sampleCfg noProtocolBackend
      = (Except.error NetError.vhostUserProtocolNotSupport,
        [BackendCall.setOwner, BackendCall.getFeatures,
          BackendCall.setFeatures (initialAvailFeatures &&& noProtocolBackend.features)]) :=
  new_protocol_not_supported sampleMac sampleCfg noProtocolBackend rfl rfl rfl rfl (by decide)

/-- C8: every successful construction with `n` requested data queues and
ring size `s` yields `queue_sizes = replicate (n + 1) s`, an
`avail_features` containing the control-queue bit (OR-ed in
unconditionally), and a backend trace whose `set_vring_base` calls are
exactly indices `0 .. n-1` with value 0, in order, before activation. -/
theorem new_success_shape (macAddr : List Nat) (vuCfg : VhostUserConfig) (be : Backend)
    (net : Net) (tr : List BackendCall)
    (h : Net.new macAddr vuCfg be = (Except.ok net, tr)) :
    net.queueSizes = List.replicate (vuCfg.numQueues + 1) vuCfg.queueSize ∧
    net.availFeatures &&& 2 ^ VIRTIO_NET_F_CTRL_VQ = 2 ^ VIRTIO_NET_F_CTRL_VQ ∧
    tr.filter isSetVringBase
      = (List.range vuCfg.numQueues).map (fun i => BackendCall.setVringBase i 0) := by
  obtain ⟨hnet, -, htr⟩ := new_ok_inversion macAddr vuCfg be net tr h
  subst hnet
  subst htr
  refine ⟨rfl, lor_two_pow_land _ _, ?_⟩
  rw [List.filter_append]
  have hpre : List.filter isSetVringBase
      [BackendCall.setOwner, BackendCall.getFeatures,
        BackendCall.setFeatures (initialAvailFeatures &&& be.features),
        BackendCall.getProtocolFeatures,
        BackendCall.setProtocolFeatures (be.protocolFeatures &&& PROTOCOL_F_MQ)] = [] := rfl
  rw [hpre, List.nil_append, List.filter_eq_self]
  intro a ha
  obtain ⟨i, -, rfl⟩ := List.mem_map.mp ha
  rfl

/-- Closed instance of the C8 theorem: constructing with MAC
AA:BB:CC:DD:EE:FF, 2 data queues and ring size 256 against `fullBackend`. -/
theorem new_success_shape_witness :
    sampleNewNet.queueSizes = List.replicate 3 256 ∧
    sampleNewNet.availFeatures &&& 2 ^ VIRTIO_NET_F_CTRL_VQ = 2 ^ VIRTIO_NET_F_CTRL_VQ ∧
    sampleNewTrace.filter isSetVringBase
      = (List.range 2).map (fun i => BackendCall.setVringBase i 0) := by
  have h := new_success_shape sampleMac sampleCfg fullBackend sampleNewNet sampleNewTrace rfl
  simpa [sampleCfg] using h

theorem ctrlQueueStep_spawned (net4 : Net) (acked queueNum : Nat) (env : ActivateEnv)
    (net5 : Net) (spawned : Nat)
    (h : ctrlQueueStep net4 acked queueNum env = Except.ok (net5, spawned)) :
    (acked &&& 2 ^ VIRTIO_NET_F_CTRL_VQ ≠ 0 ∧ queueNum % 2 ≠ 0 → spawned = 1) ∧
    (¬(acked &&& 2 ^ VIRTIO_NET_F_CTRL_VQ ≠ 0 ∧ queueNum % 2 ≠ 0) → spawned = 0) := by
  simp only [ctrlQueueStep] at h
  by_cases hc : acked &&& 2 ^ VIRTIO_NET_F_CTRL_VQ ≠ 0 ∧ queueNum % 2 ≠ 0
  · rw [if_pos hc] at h
    by_cases hs : env.ctrlSpawnOk
    · rw [if_neg (not_not_intro hs)] at h
      simp only [Except.ok.injEq, Prod.mk.injEq] at h
      exact ⟨fun _ => h.2.symm, fun hcc => absurd hc hcc⟩
    · rw [if_pos hs] at h
      exact Except.noConfusion h
  · rw [if_neg hc] at h
    simp only [Except.ok.injEq, Prod.mk.injEq] at h
    exact ⟨fun hcc => absurd hcc hc, fun _ => h.2.symm⟩

theorem activateTail_ok_count (net4 : Net) (acked queueNum : Nat) (env : ActivateEnv)
    (net2 : Net) (k : Nat)
    (h : activateTail net4 acked queueNum env = (Except.ok (), net2, k)) :
    (acked &&& 2 ^ VIRTIO_NET_F_CTRL_VQ ≠ 0 ∧ queueNum % 2 = 1 → k = 2) ∧
    (acked &&& 2 ^ VIRTIO_NET_F_CTRL_VQ = 0 ∨ queueNum % 2 = 0 → k = 1) := by
  simp only [activateTail] at h
  rcases hstep : ctrlQueueStep net4 acked queueNum env with e | ⟨net5, spawned⟩ <;>
    simp only [hstep] at h
  · exact Except.noConfusion (congrArg Prod.fst h)
  · obtain ⟨hs1, hs0⟩ := ctrlQueueStep_spawned net4 acked queueNum env net5 spawned hstep
    split_ifs at h
    all_goals try (exact Except.noConfusion (congrArg Prod.fst h))
    have hk : k = spawned + 1 := (congrArg (fun p => p.2.2) h).symm
    constructor
    · intro hc
      have h1 : spawned = 1 := hs1 ⟨hc.1, by omega⟩
      omega
    · intro hc
      have h0 : spawned = 0 := by
        refine hs0 ?_
        rintro ⟨hne, hodd⟩
        rcases hc with hc | hc
        · exact hne hc
        · exact hodd hc
      omega

/-- C7: a successful `activate` spawns exactly two worker threads (the
control-queue thread plus the main relay thread) when the control-queue
feature has been acknowledged and the total queue count is odd, and exactly
one otherwise. -/
theorem activate_thread_count (net : Net) (interruptCb : Nat)
    (queues queueEvts : List Nat) (env : ActivateEnv) (net2 : Net) (k : Nat)
    (h : net.activate interruptCb queues queueEvts env = (Except.ok (), net2, k)) :
    (net.ackedFeatures &&& 2 ^ VIRTIO_NET_F_CTRL_VQ ≠ 0 ∧ queueEvts.length % 2 = 1 →
      k = 2) ∧
    (net.ackedFeatures &&& 2 ^ VIRTIO_NET_F_CTRL_VQ = 0 ∨ queueEvts.length % 2 = 0 →
      k = 1) := by
  simp only [Net.activate] at h
  split_ifs at h
  all_goals try (exact Except.noConfusion (congrArg Prod.fst h))
  rcases hclone : cloneQueueEvts env.queueEvtCloneOk queueEvts 0 with _ | tmp <;>
    simp only [hclone] at h
  · exact Except.noConfusion (congrArg Prod.fst h)
  · exact activateTail_ok_count _ _ _ _ _ _ h

/-- Closed instance of the C7 theorem: a control-queue device with 3 queues
activated in a fully granted environment spawns 2 threads. -/
theorem activate_thread_count_witness :
    sampleCtrlNet.activate 7 [1, 2, 3] [4, 5, 6] allOkEnv
      = (Except.ok (), sampleCtrlActivatedNet, 2) ∧ (2 : Nat) = 2 :=
  ⟨rfl,
    (activate_thread_count sampleCtrlNet 7 [1, 2, 3] [4, 5, 6] allOkEnv
      sampleCtrlActivatedNet 2 rfl).1 (by decide)⟩

/-- C5 counterexample: with matching queue counts, a succeeding kill-eventfd
creation and a failing pause-eventfd creation, `activate` fails with
`BadActivate` but leaves `kill_evt` assigned (`some 0`) on a device whose
`kill_evt` was `none`, so the device does not remain unmodified as the
claim states. -/
theorem activate_counterexample :
    (sampleIdleNet.activate 7 [3] [4] pauseFailEnv).1
      = Except.error ActivateError.badActivate ∧
    sampleIdleNet.killEvt = none ∧
    (sampleIdleNet.activate 7 [3] [4] pauseFailEnv).2.1.killEvt = some 0 :=
  ⟨rfl, rfl, rfl⟩

/-- C5 (amended): when `activate` fails because the queue or queue-eventfd
count differs from `queue_sizes.len()`, or because the kill-eventfd pair
(the first resource created) cannot be created, the device is left exactly
as it was and no worker thread is spawned; a failure in a later
resource-creation step still reports `BadActivate` but may leave the fields
assigned before the failure point (for example `kill_evt`, as the
counterexample shows). -/
theorem activate_bad_activate_unmodified (net : Net) (interruptCb : Nat)
    (queues queueEvts : List Nat) (env : ActivateEnv) :
    (queues.length ≠ net.queueSizes.length ∨ queueEvts.length ≠ net.queueSizes.length →
      net.activate interruptCb queues queueEvts env
        = (Except.error ActivateError.badActivate, net, 0)) ∧
    (env.killEvtOk = false →
      net.activate interruptCb queues queueEvts env
        = (Except.error ActivateError.badActivate, net, 0)) := by
  constructor
  · intro h
    simp only [Net.activate]
    rw [if_pos h]
  · intro h
    by_cases hq : queues.length ≠ net.queueSizes.length ∨
        queueEvts.length ≠ net.queueSizes.length
    · simp only [Net.activate]
      rw [if_pos hq]
    · simp only [Net.activate]
      rw [if_neg hq, if_pos (by simp [h])]

/-- Closed instance of the amended C5 theorem: a queue-count mismatch and a
kill-eventfd failure both leave the sample idle device untouched. -/
theorem activate_bad_activate_unmodified_witness :
    sampleIdleNet.activate 7 [] [] allOkEnv
      = (Except.error ActivateError.badActivate, sampleIdleNet, 0) ∧
    sampleIdleNet.activate 7 [3] [4] killFailEnv
      = (Except.error ActivateError.badActivate, sampleIdleNet, 0) :=
  ⟨(activate_bad_activate_unmodified sampleIdleNet 7 [] [] allOkEnv).1 (by decide),
    (activate_bad_activate_unmodified sampleIdleNet 7 [3] [4] killFailEnv).2 rfl⟩

/-- C2 counterexample: on a paused, activated device whose backend-side
per-queue reset call fails, `reset()` returns `None` without ever writing
the kill eventfd (no `killWrite` in the trace, and `kill_evt` is still
held), contradicting the claim that the shutdown signal is always
attempted. -/
theorem reset_counterexample :
    (samplePausedNet.reset false).1 = ResetOutcome.nothing ∧
    ResetEvent.killWrite ∉ (samplePausedNet.reset false).2.2 ∧
    (samplePausedNet.reset false).2.1.killEvt = some 5 :=
  ⟨rfl, by decide, rfl⟩

/-- C2 (amended): `reset()` called while paused first takes the device out
of the paused state (the resume is the first event, before any shutdown
write, and the final state has `paused = false`); the shutdown signal is
attempted only when the backend-side reset call succeeds — on backend
failure `reset()` returns `None` without signalling shutdown, and on
success it writes the kill eventfd whenever one is held. -/
theorem reset_paused_and_shutdown (net : Net) (backendResetOk : Bool) :
    (net.pauseEvt.isSome = true →
      (net.reset backendResetOk).2.1.paused = false ∧
      (net.reset backendResetOk).2.2.head? = some ResetEvent.resume) ∧
    (backendResetOk = false →
      ResetEvent.killWrite ∉ (net.reset backendResetOk).2.2 ∧
      (net.reset backendResetOk).1 = ResetOutcome.nothing) ∧
    (backendResetOk = true → net.killEvt.isSome = true →
      ResetEvent.killWrite ∈ (net.reset backendResetOk).2.2) := by
  obtain ⟨ke, pe, av, ak, bf, cs, qs, qe, ic, et, ct, pa⟩ := net
  cases backendResetOk <;> cases pe <;> cases ke <;> cases ic <;> cases qe <;>
    simp [Net.reset, Net.resume]

/-- Closed instance of the amended C2 theorem on the sample paused device,
with both a succeeding and a failing backend reset. -/
theorem reset_paused_and_shutdown_witness :
    ((samplePausedNet.reset true).2.1.paused = false ∧
      (samplePausedNet.reset true).2.2.head? = some ResetEvent.resume) ∧
    (ResetEvent.killWrite ∉ (samplePausedNet.reset false).2.2 ∧
      (samplePausedNet.reset false).1 = ResetOutcome.nothing) ∧
    ResetEvent.killWrite ∈ (samplePausedNet.reset true).2.2 :=
  ⟨(reset_paused_and_shutdown samplePausedNet true).1 rfl,
    (reset_paused_and_shutdown samplePausedNet false).2.1 rfl,
    (reset_paused_and_shutdown samplePausedNet true).2.2 rfl rfl⟩

/-- C9: `reset()` on an idle device (no pause eventfd, no kill eventfd, no
interrupt callback, no queue eventfds) whose backend reset call succeeds
panics on unwrapping the absent interrupt handle instead of returning
`None`. -/
theorem reset_idle_panics (net : Net) (hp : net.pauseEvt = none)
    (hk : net.killEvt = none) (hi : net.interruptCb = none)
    (hq : net.queueEvts = none) :
    (net.reset true).1 = ResetOutcome.panicked := by
  simp [Net.reset, hp, hk, hi, hq]

/-- Closed instance of the C9 theorem on the sample idle device. -/
theorem reset_idle_panics_witness :
    (sampleIdleNet.reset true).1 = ResetOutcome.panicked :=
  reset_idle_panics sampleIdleNet rfl rfl rfl rfl

end VhostUserNet
